import Mathlib

/-!
# Verification of the balancebeam proxy orchestration engine

Shallow embedding of `src/proj-2/balancebeam/src/main.rs`: the shared
`ProxyState`, the upstream selector (`connect_to_upstream`), the per-upstream
health-check classification (`active_health_check`), the rate limiter
(`rate_limiting_check` / `rate_limiting_counter_clear`), and the per-client
connection handler (`handle_connection`).

Each async operation is modelled as a pure state transformer; nondeterminism
(random index draws, socket outcomes) is resolved by explicit oracle inputs.
-/

namespace BalanceBeam

/-- The shared proxy state (struct `ProxyState` in main.rs).  The
`rate_limiting_counter` HashMap is modelled as an association list. -/
structure ProxyState where
  active_health_check_interval : Nat
  active_health_check_path : String
  max_requests_per_minute : Nat
  upstream_addresses : List String
  upstream_address_flags : List Bool
  upstream_address_alive_num : Nat
  rate_limiting_counter : List (String × Nat)
deriving Repr, DecidableEq

/-- Initial state built in `main` (main.rs lines 84-92): every upstream marked
alive, alive count = number of upstreams, empty rate-limit counter. -/
def initial_proxy_state (upstreams : List String) (interval : Nat)
    (path : String) (max_req : Nat) : ProxyState :=
  { active_health_check_interval := interval
    active_health_check_path := path
    max_requests_per_minute := max_req
    upstream_addresses := upstreams
    upstream_address_flags := List.replicate upstreams.length true
    upstream_address_alive_num := upstreams.length
    rate_limiting_counter := [] }

/-- The pool invariant stated in the spec: `aliveCount` equals the number of
`true` entries of the alive-flag array, which stays parallel to the address
list. -/
def pool_invariant (s : ProxyState) : Prop :=
  s.upstream_address_alive_num = s.upstream_address_flags.count true ∧
  s.upstream_address_flags.length = s.upstream_addresses.length

instance (s : ProxyState) : Decidable (pool_invariant s) := by
  unfold pool_invariant; infer_instance

/-- The unguarded demotion performed by `connect_to_upstream` on a connect
failure (main.rs lines 140-143): set the flag to false and decrement the
alive count. -/
def demote_upstream (s : ProxyState) (i : Nat) : ProxyState :=
  { s with
    upstream_address_flags := s.upstream_address_flags.set i false
    upstream_address_alive_num := s.upstream_address_alive_num - 1 }

/-- The promotion half of the health checker's 200 arm (main.rs lines
294-297): set the flag to true and increment the alive count. -/
def promote_upstream (s : ProxyState) (i : Nat) : ProxyState :=
  { s with
    upstream_address_flags := s.upstream_address_flags.set i true
    upstream_address_alive_num := s.upstream_address_alive_num + 1 }

/-- The guarded mark-dead update of `active_health_check` (main.rs lines
301-310 and 316-325): if the flag is already false, `continue` without
touching the state, otherwise demote. -/
def markDead (s : ProxyState) (i : Nat) : ProxyState :=
  if s.upstream_address_flags.getD i false = false then s
  else demote_upstream s i

/-- The guarded mark-alive update of the health checker's 200 arm (main.rs
lines 288-297): if the flag is already true, `continue` without touching the
state, otherwise promote. -/
def markAlive (s : ProxyState) (i : Nat) : ProxyState :=
  if s.upstream_address_flags.getD i false = true then s
  else promote_upstream s i

/-- Outcome of one health-check probe of one upstream, resolving the socket
nondeterminism of `active_health_check` (main.rs lines 262-327). -/
inductive ProbeResult where
  | connect_failed
  | write_failed
  | read_failed
  | got_response (status : Nat)
deriving Repr, DecidableEq

/-- One iteration of the inner per-upstream loop of `active_health_check`
(main.rs lines 262-327): connect failure and response-read failure take the
guarded mark-dead path; a request-write failure just logs and `continue`s
(lines 264-268), leaving the state untouched; a 200 response takes the
guarded mark-alive path; any other status the guarded mark-dead path. -/
def health_probe_step (s : ProxyState) (i : Nat) : ProbeResult → ProxyState
  | .connect_failed => markDead s i
  | .write_failed => s
  | .read_failed => markDead s i
  | .got_response status => if status = 200 then markAlive s i else markDead s i

/-- Lookup in the association-list model of the rate-limit HashMap. -/
def lookupCounter : List (String × Nat) → String → Option Nat
  | [], _ => none
  | (k, v) :: rest, ip => if k = ip then some v else lookupCounter rest ip

/-- Insert-or-replace in the association-list model of the rate-limit
HashMap. -/
def insertCounter : List (String × Nat) → String → Nat → List (String × Nat)
  | [], ip, v => [(ip, v)]
  | (k, w) :: rest, ip, v =>
    if k = ip then (k, v) :: rest else (k, w) :: insertCounter rest ip v

/-- Embedding of `rate_limiting_check` (main.rs lines 341-353): when the configured limit
is 0 return Ok (`true`) without touching the map; otherwise fetch-or-insert
the client's counter, increment it, and return Ok iff the new count does not
exceed the limit. -/
def rate_limiting_check (s : ProxyState) (client_ip : String) :
    Bool × ProxyState :=
  if s.max_requests_per_minute = 0 then (true, s)
  else
    let count := (lookupCounter s.rate_limiting_counter client_ip).getD 0 + 1
    (decide (count ≤ s.max_requests_per_minute),
     { s with rate_limiting_counter :=
        insertCounter s.rate_limiting_counter client_ip count })

/-- One firing of `rate_limiting_counter_clear` (main.rs lines 332-339):
wipe the whole counter map. -/
def rate_limiting_counter_clear (s : ProxyState) : ProxyState :=
  { s with rate_limiting_counter := [] }

/-- Runs `n` consecutive `rate_limiting_check` calls for one client, collecting the
Ok/Err results in order. -/
def rate_limit_checks : Nat → ProxyState → String → List Bool × ProxyState
  | 0, s, _ => ([], s)
  | n + 1, s, ip =>
    let r := rate_limiting_check s ip
    let rest := rate_limit_checks n r.2 ip
    (r.1 :: rest.1, rest.2)

/-- Outcome of `connect_to_upstream` in the oracle model: `success` is the
`Ok(stream)` return, `noUpstreams` the `Err("No alive upstream addresses")`
return, and `oracleExhausted` marks a run cut off because the finite oracle
ran out of random draws (the real loop would keep drawing). -/
inductive ConnectOutcome where
  | success
  | noUpstreams
  | oracleExhausted
deriving Repr, DecidableEq

/-- Embedding of `connect_to_upstream` (main.rs lines 114-146).  The oracle supplies, per
loop iteration that reaches the random draw, the drawn index and whether the
`TcpStream::connect` to it would succeed.  Returns the outcome, the final
state, and how many connect attempts were made.  Each iteration first
re-checks `upstream_address_alive_num == 0` (line 125); a draw whose flag is
false is skipped with no connect attempt (lines 129-131); a failed connect
demotes the drawn upstream (lines 140-142) and loops. -/
def connect_to_upstream (oracle : List (Nat × Bool)) (s : ProxyState) :
    ConnectOutcome × ProxyState × Nat :=
  if s.upstream_address_alive_num = 0 then (.noUpstreams, s, 0)
  else
    match oracle with
    | [] => (.oracleExhausted, s, 0)
    | (idx, ok) :: rest =>
      if s.upstream_address_flags.getD idx false = false then
        connect_to_upstream rest s
      else if ok then (.success, s, 1)
      else
        let r := connect_to_upstream rest (demote_upstream s idx)
        (r.1, r.2.1, r.2.2 + 1)

/-- The `request::Error` variants as matched by `handle_connection`
(main.rs lines 179-196). -/
inductive RequestError where
  | incompleteRequest (n : Nat)
  | malformedRequest
  | invalidContentLength
  | contentLengthMismatch
  | requestBodyTooLarge
  | connectionError
deriving Repr, DecidableEq

/-- The status codes of the error-mapping match in `handle_connection`
(main.rs lines 190-197). -/
def http_error_status : RequestError → Nat
  | .incompleteRequest _ => 400
  | .malformedRequest => 400
  | .invalidContentLength => 400
  | .contentLengthMismatch => 400
  | .requestBodyTooLarge => 413
  | .connectionError => 503

/-- One iteration's worth of socket nondeterminism for the request loop of
`handle_connection`: either `request::read_from_stream` fails with an error,
or it yields a request, in which case the oracle also fixes whether the write
to the upstream and the read of its response succeed. -/
inductive IterEvent where
  | readErr (e : RequestError)
  | read (upstream_write_ok : Bool) (upstream_read_ok : Bool)
deriving Repr, DecidableEq

/-- Observable actions of a `handle_connection` run.  `close_connection`
records a `return` from the handler, which drops the client `TcpStream`. -/
inductive HAction where
  | select_upstream
  | read_request
  | respond (status : Nat)
  | forward_response
  | close_connection
deriving Repr, DecidableEq

/-- The request loop of `handle_connection` (main.rs lines 174-242), one
iteration per oracle event.  `IncompleteRequest(0)` and `ConnectionError`
`return` without a response (lines 179-187); any other read error is answered
per `http_error_status` and the loop continues (lines 188-200); a parsed
request first passes `rate_limiting_check` (429 and continue on failure,
lines 209-213), then a failed upstream write or upstream-response read yields
502 and `return` (lines 221-238); otherwise the response is forwarded and the
loop continues. -/
def handle_connection_loop :
    List IterEvent → ProxyState → String → List HAction × ProxyState
  | [], s, _ => ([], s)
  | ev :: rest, s, ip =>
    match ev with
    | .readErr (.incompleteRequest 0) => ([.read_request, .close_connection], s)
    | .readErr .connectionError => ([.read_request, .close_connection], s)
    | .readErr e =>
      let r := handle_connection_loop rest s ip
      (.read_request :: .respond (http_error_status e) :: r.1, r.2)
    | .read write_ok read_ok =>
      let rl := rate_limiting_check s ip
      if rl.1 = false then
        let r := handle_connection_loop rest rl.2 ip
        (.read_request :: .respond 429 :: r.1, r.2)
      else if write_ok = false then
        ([.read_request, .respond 502, .close_connection], rl.2)
      else if read_ok = false then
        ([.read_request, .respond 502, .close_connection], rl.2)
      else
        let r := handle_connection_loop rest rl.2 ip
        (.read_request :: .forward_response :: r.1, r.2)

/-- Embedding of `handle_connection` (main.rs lines 157-243): connect to an upstream first
(lines 162-169); on failure send 502 and `return` (closing the client
connection); on success enter the request loop with the upstream connection
held.  An `oracleExhausted` connect run is a cut-off trace. -/
def handle_connection (oracle : List (Nat × Bool)) (events : List IterEvent)
    (s : ProxyState) (client_ip : String) : List HAction × ProxyState :=
  let c := connect_to_upstream oracle s
  match c.1 with
  | .success =>
    let r := handle_connection_loop events c.2.1 client_ip
    (.select_upstream :: r.1, r.2)
  | .noUpstreams =>
    ([.select_upstream, .respond 502, .close_connection], c.2.1)
  | .oracleExhausted => ([.select_upstream], c.2.1)

/-! ## List helper lemmas -/

lemma getD_true_lt_length (l : List Bool) (i : Nat)
    (h : l.getD i false = true) : i < l.length := by
  by_contra hn
  rw [List.getD_eq_default _ _ (Nat.le_of_not_lt hn)] at h
  exact Bool.false_ne_true h

lemma getD_set_self (l : List Bool) (i : Nat) (x : Bool) (h : i < l.length) :
    (l.set i x).getD i false = x := by
  induction l generalizing i with
  | nil => simp at h
  | cons b t ih =>
    cases i with
    | zero => rfl
    | succ n => exact ih n (Nat.lt_of_succ_lt_succ h)

lemma count_set_false (l : List Bool) (i : Nat) (h : l.getD i false = true) :
    (l.set i false).count true + 1 = l.count true := by
  induction l generalizing i with
  | nil => simp [List.getD] at h
  | cons b t ih =>
    cases i with
    | zero =>
      have hb : b = true := h
      subst hb
      simp [List.count_cons]
    | succ n =>
      have := ih n h
      cases b <;> simp [List.count_cons] <;> omega

lemma count_set_true (l : List Bool) (i : Nat) (hlen : i < l.length)
    (h : l.getD i false = false) :
    (l.set i true).count true = l.count true + 1 := by
  induction l generalizing i with
  | nil => simp at hlen
  | cons b t ih =>
    cases i with
    | zero =>
      have hb : b = false := h
      subst hb
      simp [List.count_cons]
    | succ n =>
      have := ih n (Nat.lt_of_succ_lt_succ hlen) h
      cases b <;> simp [List.count_cons] <;> omega

/-! ## Invariant preservation lemmas -/

lemma demote_preserves_invariant (s : ProxyState) (i : Nat)
    (hinv : pool_invariant s)
    (hflag : s.upstream_address_flags.getD i false = true) :
    pool_invariant (demote_upstream s i) := by
  obtain ⟨h1, h2⟩ := hinv
  have hc := count_set_false s.upstream_address_flags i hflag
  refine ⟨?_, ?_⟩
  · simp only [demote_upstream]
    omega
  · simp [demote_upstream, h2]

lemma markDead_preserves_invariant (s : ProxyState) (i : Nat)
    (hinv : pool_invariant s) : pool_invariant (markDead s i) := by
  unfold markDead
  split
  · exact hinv
  · next h =>
    exact demote_preserves_invariant s i hinv (by
      revert h; cases s.upstream_address_flags.getD i false <;> simp)

lemma markAlive_preserves_invariant (s : ProxyState) (i : Nat)
    (hlen : i < s.upstream_address_flags.length)
    (hinv : pool_invariant s) : pool_invariant (markAlive s i) := by
  obtain ⟨h1, h2⟩ := hinv
  unfold markAlive
  split
  · exact ⟨h1, h2⟩
  · next h =>
    have hf : s.upstream_address_flags.getD i false = false := by
      revert h; cases s.upstream_address_flags.getD i false <;> simp
    have hc := count_set_true s.upstream_address_flags i hlen hf
    refine ⟨?_, ?_⟩
    · simp only [promote_upstream]
      omega
    · simp [promote_upstream, h2]

lemma connect_to_upstream_zero (oracle : List (Nat × Bool)) (s : ProxyState)
    (h : s.upstream_address_alive_num = 0) :
    connect_to_upstream oracle s = (.noUpstreams, s, 0) := by
  unfold connect_to_upstream
  rw [if_pos h]

lemma connect_to_upstream_nil (s : ProxyState)
    (h : ¬ s.upstream_address_alive_num = 0) :
    connect_to_upstream [] s = (.oracleExhausted, s, 0) := by
  unfold connect_to_upstream
  rw [if_neg h]

lemma connect_to_upstream_cons (idx : Nat) (ok : Bool)
    (rest : List (Nat × Bool)) (s : ProxyState)
    (h : ¬ s.upstream_address_alive_num = 0) :
    connect_to_upstream ((idx, ok) :: rest) s =
      if s.upstream_address_flags.getD idx false = false then
        connect_to_upstream rest s
      else if ok then (.success, s, 1)
      else ((connect_to_upstream rest (demote_upstream s idx)).1,
            (connect_to_upstream rest (demote_upstream s idx)).2.1,
            (connect_to_upstream rest (demote_upstream s idx)).2.2 + 1) := by
  conv_lhs => unfold connect_to_upstream
  rw [if_neg h]

lemma connect_preserves_invariant (oracle : List (Nat × Bool)) :
    ∀ s : ProxyState, pool_invariant s →
      pool_invariant (connect_to_upstream oracle s).2.1 := by
  induction oracle with
  | nil =>
    intro s h
    by_cases hz : s.upstream_address_alive_num = 0
    · rw [connect_to_upstream_zero [] s hz]; exact h
    · rw [connect_to_upstream_nil s hz]; exact h
  | cons e rest ih =>
    intro s h
    obtain ⟨idx, ok⟩ := e
    by_cases hz : s.upstream_address_alive_num = 0
    · rw [connect_to_upstream_zero _ s hz]; exact h
    · rw [connect_to_upstream_cons idx ok rest s hz]
      by_cases hf : s.upstream_address_flags.getD idx false = false
      · rw [if_pos hf]; exact ih s h
      · rw [if_neg hf]
        cases ok with
        | true => rw [if_pos rfl]; exact h
        | false =>
          rw [if_neg (by simp)]
          exact ih _ (demote_preserves_invariant s idx h (by
            revert hf; cases s.upstream_address_flags.getD idx false <;> simp))

/-- Demo pool with two live upstreams, used by the witness theorems. -/
def s_demo : ProxyState :=
  { active_health_check_interval := 10
    active_health_check_path := "/"
    max_requests_per_minute := 0
    upstream_addresses := ["a", "b"]
    upstream_address_flags := [true, true]
    upstream_address_alive_num := 2
    rate_limiting_counter := [] }

/-- C1: the invariant `aliveCount = count of true alive flags` (with the flag
array parallel to the address list, hence `0 ≤ aliveCount ≤ N`) holds in the
initial pool state, where all N upstreams are alive and `aliveCount = N`, and
is preserved by the selector's demotion on connect failure (which the
selector only reaches on an index whose flag it saw set), by any whole run of
the selector loop, and by the health checker's guarded markDead/markAlive
updates. -/
theorem pool_invariant_initial_and_preserved :
    (∀ ups interval path m,
       pool_invariant (initial_proxy_state ups interval path m) ∧
       (initial_proxy_state ups interval path m).upstream_address_alive_num =
         ups.length) ∧
    (∀ s i, pool_invariant s →
       s.upstream_address_flags.getD i false = true →
       pool_invariant (demote_upstream s i)) ∧
    (∀ s i, pool_invariant s → pool_invariant (markDead s i)) ∧
    (∀ s i, i < s.upstream_address_flags.length → pool_invariant s →
       pool_invariant (markAlive s i)) ∧
    (∀ oracle s, pool_invariant s →
       pool_invariant (connect_to_upstream oracle s).2.1) ∧
    (∀ s, pool_invariant s →
       s.upstream_address_alive_num ≤ s.upstream_addresses.length) := by
  refine ⟨?_, ?_, ?_, ?_, ?_, ?_⟩
  · intro ups interval path m
    refine ⟨⟨?_, ?_⟩, rfl⟩
    · simp [initial_proxy_state]
    · simp [initial_proxy_state]
  · exact demote_preserves_invariant
  · exact markDead_preserves_invariant
  · exact markAlive_preserves_invariant
  · exact connect_preserves_invariant
  · intro s hinv
    obtain ⟨h1, h2⟩ := hinv
    calc s.upstream_address_alive_num
        = s.upstream_address_flags.count true := h1
      _ ≤ s.upstream_address_flags.length := List.count_le_length _ _
      _ = s.upstream_addresses.length := h2

/-- Witness for C1: the demotion branch applied at a concrete live index. -/
theorem pool_invariant_initial_and_preserved_witness :
    pool_invariant s_demo ∧
    s_demo.upstream_address_flags.getD 0 false = true ∧
    pool_invariant (demote_upstream s_demo 0) :=
  ⟨by decide, by decide,
   pool_invariant_initial_and_preserved.2.1 s_demo 0 (by decide) (by decide)⟩

/-- C2: the health checker's guarded markDead/markAlive are idempotent — a
second application to the same index is a no-op on the whole state (flags and
aliveCount alike) — and two consecutive markDead operations on an alive index
decrease `aliveCount` by exactly 1 in total, not 2. -/
theorem markDead_markAlive_idempotent :
    (∀ s i, markDead (markDead s i) i = markDead s i) ∧
    (∀ s i, i < s.upstream_address_flags.length →
       markAlive (markAlive s i) i = markAlive s i) ∧
    (∀ s i, pool_invariant s →
       s.upstream_address_flags.getD i false = true →
       (markDead (markDead s i) i).upstream_address_alive_num + 1 =
         s.upstream_address_alive_num) := by
  have markDead_idem : ∀ (s : ProxyState) (i : Nat),
      markDead (markDead s i) i = markDead s i := by
    intro s i
    by_cases h : s.upstream_address_flags.getD i false = false
    · have hs : markDead s i = s := by rw [markDead, if_pos h]
      rw [hs]
      exact hs
    · have ht : s.upstream_address_flags.getD i false = true := by
        revert h; cases s.upstream_address_flags.getD i false <;> simp
      have hlen := getD_true_lt_length _ _ ht
      have h2 : (markDead s i).upstream_address_flags.getD i false = false := by
        rw [markDead, if_neg h]
        exact getD_set_self _ _ _ hlen
      conv_lhs => rw [markDead, if_pos h2]
  refine ⟨markDead_idem, ?_, ?_⟩
  · intro s i hlen
    by_cases h : s.upstream_address_flags.getD i false = true
    · have hs : markAlive s i = s := by rw [markAlive, if_pos h]
      rw [hs]
      exact hs
    · have h2 : (markAlive s i).upstream_address_flags.getD i false = true := by
        rw [markAlive, if_neg h]
        exact getD_set_self _ _ _ hlen
      conv_lhs => rw [markAlive, if_pos h2]
  · intro s i hinv ht
    obtain ⟨h1, _⟩ := hinv
    have hc := count_set_false s.upstream_address_flags i ht
    have hne : ¬ s.upstream_address_flags.getD i false = false := by
      rw [ht]; simp
    rw [markDead_idem s i, markDead, if_neg hne]
    show s.upstream_address_alive_num - 1 + 1 = s.upstream_address_alive_num
    omega

/-- Witness for C2: double markDead on a concrete live index drops the alive
count from 2 to 1. -/
theorem markDead_markAlive_idempotent_witness :
    pool_invariant s_demo ∧
    s_demo.upstream_address_flags.getD 1 false = true ∧
    (markDead (markDead s_demo 1) 1).upstream_address_alive_num + 1 =
      s_demo.upstream_address_alive_num :=
  ⟨by decide, by decide,
   markDead_markAlive_idempotent.2.2 s_demo 1 (by decide) (by decide)⟩

/-! ## Health-check classification (C3) -/

lemma markDead_flag_false (s : ProxyState) (i : Nat) :
    (markDead s i).upstream_address_flags.getD i false = false := by
  by_cases h : s.upstream_address_flags.getD i false = false
  · rw [markDead, if_pos h]; exact h
  · have ht : s.upstream_address_flags.getD i false = true := by
      revert h; cases s.upstream_address_flags.getD i false <;> simp
    rw [markDead, if_neg h]
    exact getD_set_self _ _ _ (getD_true_lt_length _ _ ht)

lemma markAlive_flag_true (s : ProxyState) (i : Nat)
    (hlen : i < s.upstream_address_flags.length) :
    (markAlive s i).upstream_address_flags.getD i false = true := by
  by_cases h : s.upstream_address_flags.getD i false = true
  · rw [markAlive, if_pos h]; exact h
  · rw [markAlive, if_neg h]
    exact getD_set_self _ _ _ hlen

/-- C3 counterexample: an upstream that is alive and suffers an I/O failure
while the probe request is being written stays alive — the write-failure arm
of `active_health_check` only logs and `continue`s, so a probe I/O failure
does not always mark the upstream dead. -/
theorem health_probe_write_failure_not_marked_dead :
    health_probe_step s_demo 0 .write_failed = s_demo ∧
    (health_probe_step s_demo 0 .write_failed).upstream_address_flags.getD
      0 false = true :=
  ⟨rfl, rfl⟩

/-- C3 (amended): the health-check probe of upstream `i` marks it dead on a
connect failure or a failure reading the response, leaves the state entirely
unchanged on a failure writing the probe request, marks it alive on an HTTP
200 response, and marks it dead on a response with any other status. -/
theorem health_probe_classification (s : ProxyState) (i : Nat)
    (hlen : i < s.upstream_address_flags.length) :
    (health_probe_step s i .connect_failed).upstream_address_flags.getD
        i false = false ∧
    (health_probe_step s i .read_failed).upstream_address_flags.getD
        i false = false ∧
    health_probe_step s i .write_failed = s ∧
    (health_probe_step s i (.got_response 200)).upstream_address_flags.getD
        i false = true ∧
    ∀ status, status ≠ 200 →
      (health_probe_step s i (.got_response status)).upstream_address_flags.getD
        i false = false := by
  refine ⟨markDead_flag_false s i, markDead_flag_false s i, rfl, ?_, ?_⟩
  · show (if (200 : Nat) = 200 then markAlive s i
      else markDead s i).upstream_address_flags.getD i false = true
    rw [if_pos rfl]
    exact markAlive_flag_true s i hlen
  · intro status hstatus
    show (if status = 200 then markAlive s i
      else markDead s i).upstream_address_flags.getD i false = false
    rw [if_neg hstatus]
    exact markDead_flag_false s i

/-- Witness for C3 (amended): concrete probes against a live pool. -/
theorem health_probe_classification_witness :
    0 < s_demo.upstream_address_flags.length ∧
    (health_probe_step s_demo 0 .connect_failed).upstream_address_flags.getD
       0 false = false ∧
    (health_probe_step s_demo 0 (.got_response 404)).upstream_address_flags.getD
       0 false = false :=
  ⟨by decide, (health_probe_classification s_demo 0 (by decide)).1,
   (health_probe_classification s_demo 0 (by decide)).2.2.2.2 404 (by decide)⟩

/-! ## Pool exhaustion (C4) -/

/-- Demo pool whose only upstream is marked dead (alive count 0). -/
def s_dead : ProxyState :=
  { active_health_check_interval := 10
    active_health_check_path := "/"
    max_requests_per_minute := 0
    upstream_addresses := ["u"]
    upstream_address_flags := [false]
    upstream_address_alive_num := 0
    rate_limiting_counter := [] }

/-- C4 counterexample: with zero live upstreams the handler answers 502 and
then returns, which drops (closes) the client connection — it does not stay
open: even though the client has a request pending, no request is ever
read. -/
theorem no_upstreams_connection_closes :
    handle_connection [] [.read true true] s_dead "c" =
      ([.select_upstream, .respond 502, .close_connection], s_dead) ∧
    HAction.read_request ∉ (handle_connection [] [.read true true] s_dead "c").1 := by
  constructor
  · rfl
  · decide

/-- C4 (amended): when `aliveCount` is zero, upstream selection fails
immediately with the "no alive upstream addresses" error, making no connect
attempt whatever random draws would come next (the zero check is re-done at
the top of every loop iteration, so the loop cannot spin once the pool is
exhausted); the client is sent a 502 Bad Gateway response and the handler
then returns, closing the client connection. -/
theorem no_upstreams_fails_immediately (oracle : List (Nat × Bool))
    (events : List IterEvent) (s : ProxyState) (client_ip : String)
    (h : s.upstream_address_alive_num = 0) :
    connect_to_upstream oracle s = (.noUpstreams, s, 0) ∧
    handle_connection oracle events s client_ip =
      ([.select_upstream, .respond 502, .close_connection], s) := by
  refine ⟨connect_to_upstream_zero oracle s h, ?_⟩
  simp [handle_connection, connect_to_upstream_zero oracle s h]

/-- Witness for C4 (amended): the dead pool, a nonempty oracle and a pending
request. -/
theorem no_upstreams_fails_immediately_witness :
    s_dead.upstream_address_alive_num = 0 ∧
    connect_to_upstream [(0, true)] s_dead = (.noUpstreams, s_dead, 0) ∧
    handle_connection [(0, true)] [.read true true] s_dead "c" =
      ([.select_upstream, .respond 502, .close_connection], s_dead) :=
  ⟨rfl,
   (no_upstreams_fails_immediately [(0, true)] [.read true true] s_dead "c" rfl).1,
   (no_upstreams_fails_immediately [(0, true)] [.read true true] s_dead "c" rfl).2⟩

/-! ## Rate limiting (C5, C8) -/

lemma lookupCounter_insertCounter_self (m : List (String × Nat)) (ip : String)
    (v : Nat) : lookupCounter (insertCounter m ip v) ip = some v := by
  induction m with
  | nil => simp [insertCounter, lookupCounter]
  | cons kv rest ih =>
    obtain ⟨k, w⟩ := kv
    by_cases h : k = ip
    · simp [insertCounter, lookupCounter, h]
    · simp [insertCounter, lookupCounter, h, ih]

/-- Empty pool whose only configuration is a rate limit, used to model a
fresh rate-limit window for one client. -/
def rl_state (limit : Nat) : ProxyState :=
  { active_health_check_interval := 10
    active_health_check_path := "/"
    max_requests_per_minute := limit
    upstream_addresses := []
    upstream_address_flags := []
    upstream_address_alive_num := 0
    rate_limiting_counter := [] }

lemma rate_limiting_check_pos (s : ProxyState) (ip : String)
    (h : ¬ s.max_requests_per_minute = 0) :
    rate_limiting_check s ip =
      (decide ((lookupCounter s.rate_limiting_counter ip).getD 0 + 1 ≤
         s.max_requests_per_minute),
       { s with rate_limiting_counter := insertCounter s.rate_limiting_counter ip ((lookupCounter s.rate_limiting_counter ip).getD 0 + 1) }) := by
  rw [rate_limiting_check, if_neg h]

lemma rate_limit_checks_run (ip : String) (n : Nat) :
    ∀ (s : ProxyState) (c : Nat),
      0 < s.max_requests_per_minute →
      (lookupCounter s.rate_limiting_counter ip).getD 0 = c →
      (rate_limit_checks n s ip).1 =
        (List.range n).map
          (fun k => decide (c + k + 1 ≤ s.max_requests_per_minute)) ∧
      lookupCounter
          (rate_limit_checks n s ip).2.rate_limiting_counter ip =
        (if n = 0 then lookupCounter s.rate_limiting_counter ip
         else some (c + n)) ∧
      (rate_limit_checks n s ip).2.max_requests_per_minute =
        s.max_requests_per_minute := by
  induction n with
  | zero =>
    intro s c _ _
    exact ⟨rfl, by simp [rate_limit_checks], rfl⟩
  | succ n ih =>
    intro s c hmax hc
    have hne : ¬ s.max_requests_per_minute = 0 := by omega
    have hcheck := rate_limiting_check_pos s ip hne
    rw [hc] at hcheck
    have hs' : lookupCounter
        (rate_limiting_check s ip).2.rate_limiting_counter ip = some (c + 1) := by
      rw [hcheck]
      exact lookupCounter_insertCounter_self _ _ _
    have hm' : (rate_limiting_check s ip).2.max_requests_per_minute =
        s.max_requests_per_minute := by rw [hcheck]
    have hrest := ih (rate_limiting_check s ip).2 (c + 1)
      (by rw [hm']; exact hmax) (by rw [hs']; rfl)
    refine ⟨?_, ?_, ?_⟩
    · show (rate_limiting_check s ip).1 ::
          (rate_limit_checks n (rate_limiting_check s ip).2 ip).1 = _
      rw [hrest.1, hm', List.range_succ_eq_map, List.map_cons, List.map_map]
      have h0 : (rate_limiting_check s ip).1 =
          decide (c + 0 + 1 ≤ s.max_requests_per_minute) := by
        rw [hcheck]
      rw [h0]
      have hfe : (fun k => decide (c + k + 1 ≤ s.max_requests_per_minute)) ∘
          Nat.succ =
          fun k => decide (c + 1 + k + 1 ≤ s.max_requests_per_minute) := by
        funext k
        simp only [Function.comp]
        rw [show c + Nat.succ k + 1 = c + 1 + k + 1 from by omega]
      rw [hfe]
    · show lookupCounter
          (rate_limit_checks n (rate_limiting_check s ip).2 ip).2.rate_limiting_counter
          ip = _
      rw [hrest.2.1]
      cases n with
      | zero => simp [hs']
      | succ m =>
        simp only [if_neg (Nat.succ_ne_zero m), if_neg (Nat.succ_ne_zero (m + 1))]
        rw [show c + 1 + (m + 1) = c + (m + 1 + 1) from by omega]
    · show (rate_limit_checks n (rate_limiting_check s ip).2 ip).2.max_requests_per_minute = _
      rw [hrest.2.2, hm']

/-- C5: with a configured limit of 0 the rate-limit check always passes and
leaves the state (in particular the counter map) untouched; with a positive
limit the check rejects exactly when the incremented count strictly exceeds
the limit; concretely, with limit 3 and a fresh window, four checks for one
IP yield pass, pass, pass, reject, and after the window clear the next check
passes again. -/
theorem rate_limiting_check_spec :
    (∀ s ip, s.max_requests_per_minute = 0 →
       rate_limiting_check s ip = (true, s)) ∧
    (∀ s ip, 0 < s.max_requests_per_minute →
       ((rate_limiting_check s ip).1 = false ↔
         s.max_requests_per_minute <
           (lookupCounter s.rate_limiting_counter ip).getD 0 + 1)) ∧
    (rate_limit_checks 4 (rl_state 3) "c").1 = [true, true, true, false] ∧
    (rate_limiting_check
       (rate_limiting_counter_clear (rate_limit_checks 4 (rl_state 3) "c").2)
       "c").1 = true := by
  refine ⟨?_, ?_, by decide, by decide⟩
  · intro s ip h
    rw [rate_limiting_check, if_pos h]
  · intro s ip h
    rw [rate_limiting_check_pos s ip (by omega)]
    simp [Nat.not_le]


/-- Witness for C5: the disabled limiter on a concrete state, and the
rejection criterion at limit 3 on a fresh window. -/
theorem rate_limiting_check_spec_witness :
    s_demo.max_requests_per_minute = 0 ∧
    rate_limiting_check s_demo "c" = (true, s_demo) ∧
    0 < (rl_state 3).max_requests_per_minute ∧
    ((rate_limiting_check (rl_state 3) "c").1 = false ↔
      (rl_state 3).max_requests_per_minute <
        (lookupCounter (rl_state 3).rate_limiting_counter "c").getD 0 + 1) :=
  ⟨rfl, rate_limiting_check_spec.1 s_demo "c" rfl, by decide,
   rate_limiting_check_spec.2.1 (rl_state 3) "c" (by decide)⟩

/-- C8: the rate-limit check mutates state even when it rejects — with a
positive limit every call stores the incremented count before comparing, so
after any call the stored count for the client is the old count plus one; in
a fresh window the n-th check observes count n, the k-th check (1-based)
passes exactly when k ≤ limit, and so every check after the limit-th is
rejected. -/
theorem rejected_requests_consume_quota :
    (∀ s ip, 0 < s.max_requests_per_minute →
       lookupCounter
           (rate_limiting_check s ip).2.rate_limiting_counter ip =
         some ((lookupCounter s.rate_limiting_counter ip).getD 0 + 1)) ∧
    (∀ limit ip n, 0 < limit →
       (rate_limit_checks n (rl_state limit) ip).1 =
         (List.range n).map (fun k => decide (k + 1 ≤ limit)) ∧
       lookupCounter
           (rate_limit_checks n (rl_state limit) ip).2.rate_limiting_counter ip =
         (if n = 0 then none else some n)) := by
  constructor
  · intro s ip h
    rw [rate_limiting_check_pos s ip (by omega)]
    exact lookupCounter_insertCounter_self _ _ _
  · intro limit ip n h
    have hrun := rate_limit_checks_run ip n (rl_state limit) 0 h rfl
    constructor
    · rw [hrun.1]
      simp only [Nat.zero_add]
      rfl
    · rw [hrun.2.1]
      cases n with
      | zero => rfl
      | succ m => simp

/-- Witness for C8: limit 1 and two checks — the second is rejected yet the
stored count reaches 2. -/
theorem rejected_requests_consume_quota_witness :
    0 < (1 : Nat) ∧
    (rate_limit_checks 2 (rl_state 1) "c").1 =
      (List.range 2).map (fun k => decide (k + 1 ≤ 1)) ∧
    lookupCounter
        (rate_limit_checks 2 (rl_state 1) "c").2.rate_limiting_counter "c" =
      (if (2 : Nat) = 0 then none else some 2) :=
  ⟨by decide, (rejected_requests_consume_quota.2 1 "c" 2 (by decide)).1,
   (rejected_requests_consume_quota.2 1 "c" 2 (by decide)).2⟩

/-! ## Connection-handler error recovery (C6, C7, C9, C10) -/

/-- C6: in the request loop, an incomplete request with a nonzero byte count,
a malformed request, an invalid Content-Length, or a mismatched
Content-Length is answered with 400 Bad Request and the loop continues with
the connection open; an oversized request body is answered with 413 Payload
Too Large and the loop continues; zero bytes read before any content
(`IncompleteRequest(0)`) makes the handler return gracefully with no
response; a client-socket I/O error makes it return with no response. -/
theorem request_error_recovery :
    (∀ rest s ip n,
       handle_connection_loop (.readErr (.incompleteRequest (n + 1)) :: rest) s ip =
         (.read_request :: .respond 400 :: (handle_connection_loop rest s ip).1,
          (handle_connection_loop rest s ip).2)) ∧
    (∀ rest s ip,
       handle_connection_loop (.readErr .malformedRequest :: rest) s ip =
         (.read_request :: .respond 400 :: (handle_connection_loop rest s ip).1,
          (handle_connection_loop rest s ip).2)) ∧
    (∀ rest s ip,
       handle_connection_loop (.readErr .invalidContentLength :: rest) s ip =
         (.read_request :: .respond 400 :: (handle_connection_loop rest s ip).1,
          (handle_connection_loop rest s ip).2)) ∧
    (∀ rest s ip,
       handle_connection_loop (.readErr .contentLengthMismatch :: rest) s ip =
         (.read_request :: .respond 400 :: (handle_connection_loop rest s ip).1,
          (handle_connection_loop rest s ip).2)) ∧
    (∀ rest s ip,
       handle_connection_loop (.readErr .requestBodyTooLarge :: rest) s ip =
         (.read_request :: .respond 413 :: (handle_connection_loop rest s ip).1,
          (handle_connection_loop rest s ip).2)) ∧
    (∀ rest s ip,
       handle_connection_loop (.readErr (.incompleteRequest 0) :: rest) s ip =
         ([.read_request, .close_connection], s)) ∧
    (∀ rest s ip,
       handle_connection_loop (.readErr .connectionError :: rest) s ip =
         ([.read_request, .close_connection], s)) := by
  refine ⟨?_, ?_, ?_, ?_, ?_, ?_, ?_⟩ <;> intros <;> rfl

/-- C7: once a request has passed the rate-limit check, a failure writing it
to the upstream, or a failure reading the upstream's response, makes the
handler send 502 Bad Gateway and return, terminating the client connection
(no upstream reselection: the loop ends). -/
theorem upstream_io_failure_502_closes (rest : List IterEvent)
    (s : ProxyState) (ip : String) (write_ok read_ok : Bool)
    (hrl : (rate_limiting_check s ip).1 = true)
    (hfail : write_ok = false ∨ read_ok = false) :
    handle_connection_loop (.read write_ok read_ok :: rest) s ip =
      ([.read_request, .respond 502, .close_connection],
       (rate_limiting_check s ip).2) := by
  have hrl' : ¬ (rate_limiting_check s ip).1 = false := by rw [hrl]; simp
  show (if (rate_limiting_check s ip).1 = false then _
    else if write_ok = false then _ else if read_ok = false then _ else _) = _
  rw [if_neg hrl']
  cases hfail with
  | inl hw => rw [if_pos hw]
  | inr hr =>
    by_cases hw : write_ok = false
    · rw [if_pos hw]
    · rw [if_neg hw, if_pos hr]

/-- Witness for C7: a failed upstream write on a pool with the limiter
disabled. -/
theorem upstream_io_failure_502_closes_witness :
    (rate_limiting_check s_demo "c").1 = true ∧
    handle_connection_loop [.read false true] s_demo "c" =
      ([.read_request, .respond 502, .close_connection],
       (rate_limiting_check s_demo "c").2) :=
  ⟨rfl, upstream_io_failure_502_closes [] s_demo "c" false true rfl (Or.inl rfl)⟩

lemma loop_no_select (events : List IterEvent) :
    ∀ (s : ProxyState) (ip : String),
      HAction.select_upstream ∉ (handle_connection_loop events s ip).1 := by
  induction events with
  | nil => intro s ip; simp [handle_connection_loop]
  | cons ev rest ih =>
    intro s ip
    cases ev with
    | readErr e =>
      cases e with
      | incompleteRequest n =>
        cases n with
        | zero => simp [handle_connection_loop]
        | succ m =>
          simp only [handle_connection_loop, http_error_status, List.mem_cons]
          intro hmem
          rcases hmem with h | h | h
          · exact HAction.noConfusion h
          · exact HAction.noConfusion h
          · exact ih s ip h
      | malformedRequest =>
        simp only [handle_connection_loop, http_error_status, List.mem_cons]
        intro hmem
        rcases hmem with h | h | h
        · exact HAction.noConfusion h
        · exact HAction.noConfusion h
        · exact ih s ip h
      | invalidContentLength =>
        simp only [handle_connection_loop, http_error_status, List.mem_cons]
        intro hmem
        rcases hmem with h | h | h
        · exact HAction.noConfusion h
        · exact HAction.noConfusion h
        · exact ih s ip h
      | contentLengthMismatch =>
        simp only [handle_connection_loop, http_error_status, List.mem_cons]
        intro hmem
        rcases hmem with h | h | h
        · exact HAction.noConfusion h
        · exact HAction.noConfusion h
        · exact ih s ip h
      | requestBodyTooLarge =>
        simp only [handle_connection_loop, http_error_status, List.mem_cons]
        intro hmem
        rcases hmem with h | h | h
        · exact HAction.noConfusion h
        · exact HAction.noConfusion h
        · exact ih s ip h
      | connectionError => simp [handle_connection_loop]
    | read write_ok read_ok =>
      show HAction.select_upstream ∉
        (if (rate_limiting_check s ip).1 = false then
          (.read_request :: .respond 429 ::
             (handle_connection_loop rest (rate_limiting_check s ip).2 ip).1,
           (handle_connection_loop rest (rate_limiting_check s ip).2 ip).2)
         else if write_ok = false then
          ([.read_request, .respond 502, .close_connection],
           (rate_limiting_check s ip).2)
         else if read_ok = false then
          ([.read_request, .respond 502, .close_connection],
           (rate_limiting_check s ip).2)
         else
          (.read_request :: .forward_response ::
             (handle_connection_loop rest (rate_limiting_check s ip).2 ip).1,
           (handle_connection_loop rest (rate_limiting_check s ip).2 ip).2)).1
      by_cases hrl : (rate_limiting_check s ip).1 = false
      · rw [if_pos hrl]
        simp only [List.mem_cons]
        intro hmem
        rcases hmem with h | h | h
        · exact HAction.noConfusion h
        · exact HAction.noConfusion h
        · exact ih _ ip h
      · rw [if_neg hrl]
        by_cases hw : write_ok = false
        · rw [if_pos hw]; simp
        · rw [if_neg hw]
          by_cases hr : read_ok = false
          · rw [if_pos hr]; simp
          · rw [if_neg hr]
            simp only [List.mem_cons]
            intro hmem
            rcases hmem with h | h | h
            · exact HAction.noConfusion h
            · exact HAction.noConfusion h
            · exact ih _ ip h

lemma handle_connection_eq_success (oracle : List (Nat × Bool))
    (events : List IterEvent) (s : ProxyState) (client_ip : String)
    (h : (connect_to_upstream oracle s).1 = .success) :
    handle_connection oracle events s client_ip =
      (.select_upstream ::
         (handle_connection_loop events (connect_to_upstream oracle s).2.1 client_ip).1,
       (handle_connection_loop events (connect_to_upstream oracle s).2.1 client_ip).2) := by
  simp only [handle_connection]
  rw [h]

lemma handle_connection_eq_noUpstreams (oracle : List (Nat × Bool))
    (events : List IterEvent) (s : ProxyState) (client_ip : String)
    (h : (connect_to_upstream oracle s).1 = .noUpstreams) :
    handle_connection oracle events s client_ip =
      ([.select_upstream, .respond 502, .close_connection],
       (connect_to_upstream oracle s).2.1) := by
  simp only [handle_connection]
  rw [h]

lemma handle_connection_eq_exhausted (oracle : List (Nat × Bool))
    (events : List IterEvent) (s : ProxyState) (client_ip : String)
    (h : (connect_to_upstream oracle s).1 = .oracleExhausted) :
    handle_connection oracle events s client_ip =
      ([.select_upstream], (connect_to_upstream oracle s).2.1) := by
  simp only [handle_connection]
  rw [h]

/-- C9: every `handle_connection` run selects (and connects to) an upstream
exactly once, as its very first action, before any request is read from the
client; in particular a client that connects and sends nothing still triggers
one upstream selection, and no request is ever read without the upstream
connection already held. -/
theorem upstream_selected_once_first (oracle : List (Nat × Bool))
    (events : List IterEvent) (s : ProxyState) (client_ip : String) :
    ∃ rest, (handle_connection oracle events s client_ip).1 =
        .select_upstream :: rest ∧
      HAction.select_upstream ∉ rest := by
  cases hc : (connect_to_upstream oracle s).1 with
  | success =>
    rw [handle_connection_eq_success oracle events s client_ip hc]
    exact ⟨_, rfl,
      loop_no_select events (connect_to_upstream oracle s).2.1 client_ip⟩
  | noUpstreams =>
    rw [handle_connection_eq_noUpstreams oracle events s client_ip hc]
    exact ⟨_, rfl, by simp⟩
  | oracleExhausted =>
    rw [handle_connection_eq_exhausted oracle events s client_ip hc]
    exact ⟨_, rfl, by simp⟩

lemma loop_no_503 (events : List IterEvent) :
    ∀ (s : ProxyState) (ip : String),
      HAction.respond 503 ∉ (handle_connection_loop events s ip).1 := by
  induction events with
  | nil => intro s ip; simp [handle_connection_loop]
  | cons ev rest ih =>
    intro s ip
    cases ev with
    | readErr e =>
      cases e with
      | incompleteRequest n =>
        cases n with
        | zero => simp [handle_connection_loop]
        | succ m =>
          simp only [handle_connection_loop, http_error_status, List.mem_cons]
          intro hmem
          rcases hmem with h | h | h
          · exact HAction.noConfusion h
          · exact absurd (HAction.respond.inj h) (by decide)
          · exact ih s ip h
      | malformedRequest =>
        simp only [handle_connection_loop, http_error_status, List.mem_cons]
        intro hmem
        rcases hmem with h | h | h
        · exact HAction.noConfusion h
        · exact absurd (HAction.respond.inj h) (by decide)
        · exact ih s ip h
      | invalidContentLength =>
        simp only [handle_connection_loop, http_error_status, List.mem_cons]
        intro hmem
        rcases hmem with h | h | h
        · exact HAction.noConfusion h
        · exact absurd (HAction.respond.inj h) (by decide)
        · exact ih s ip h
      | contentLengthMismatch =>
        simp only [handle_connection_loop, http_error_status, List.mem_cons]
        intro hmem
        rcases hmem with h | h | h
        · exact HAction.noConfusion h
        · exact absurd (HAction.respond.inj h) (by decide)
        · exact ih s ip h
      | requestBodyTooLarge =>
        simp only [handle_connection_loop, http_error_status, List.mem_cons]
        intro hmem
        rcases hmem with h | h | h
        · exact HAction.noConfusion h
        · exact absurd (HAction.respond.inj h) (by decide)
        · exact ih s ip h
      | connectionError => simp [handle_connection_loop]
    | read write_ok read_ok =>
      show HAction.respond 503 ∉
        (if (rate_limiting_check s ip).1 = false then
          (.read_request :: .respond 429 ::
             (handle_connection_loop rest (rate_limiting_check s ip).2 ip).1,
           (handle_connection_loop rest (rate_limiting_check s ip).2 ip).2)
         else if write_ok = false then
          ([.read_request, .respond 502, .close_connection],
           (rate_limiting_check s ip).2)
         else if read_ok = false then
          ([.read_request, .respond 502, .close_connection],
           (rate_limiting_check s ip).2)
         else
          (.read_request :: .forward_response ::
             (handle_connection_loop rest (rate_limiting_check s ip).2 ip).1,
           (handle_connection_loop rest (rate_limiting_check s ip).2 ip).2)).1
      by_cases hrl : (rate_limiting_check s ip).1 = false
      · rw [if_pos hrl]
        simp only [List.mem_cons]
        intro hmem
        rcases hmem with h | h | h
        · exact HAction.noConfusion h
        · exact absurd (HAction.respond.inj h) (by decide)
        · exact ih _ ip h
      · rw [if_neg hrl]
        by_cases hw : write_ok = false
        · rw [if_pos hw]; simp
        · rw [if_neg hw]
          by_cases hr : read_ok = false
          · rw [if_pos hr]; simp
          · rw [if_neg hr]
            simp only [List.mem_cons]
            intro hmem
            rcases hmem with h | h | h
            · exact HAction.noConfusion h
            · exact HAction.noConfusion h
            · exact ih _ ip h

/-- C10: the handler never sends 503 Service Unavailable: the error-mapping
arm that sends `http_error_status .connectionError = 503` is unreachable,
because every `ConnectionError` from request reading is caught by the earlier
arm that returns without responding. -/
theorem no_service_unavailable_response (oracle : List (Nat × Bool))
    (events : List IterEvent) (s : ProxyState) (client_ip : String) :
    http_error_status .connectionError = 503 ∧
    HAction.respond 503 ∉ (handle_connection oracle events s client_ip).1 := by
  refine ⟨rfl, ?_⟩
  cases hc : (connect_to_upstream oracle s).1 with
  | success =>
    rw [handle_connection_eq_success oracle events s client_ip hc]
    simp only [List.mem_cons]
    intro hmem
    rcases hmem with h | h
    · exact HAction.noConfusion h
    · exact loop_no_503 events (connect_to_upstream oracle s).2.1 client_ip h
  | noUpstreams =>
    rw [handle_connection_eq_noUpstreams oracle events s client_ip hc]
    simp
  | oracleExhausted =>
    rw [handle_connection_eq_exhausted oracle events s client_ip hc]
    simp

end BalanceBeam
